import Mathlib

/-!
A shallow embedding of `elsapy.py` (jdagdelen/elsapy): an HTTP client for
api.elsevier.com plus entity classes (author, affiliation, document) that
fetch and map JSON payloads.

Modelling conventions:
* JSON values are the inductive `Json`; an HTTP response is its status code
  together with the parse of its body text (every modelled body is JSON, so
  `json.loads(r.text)` is modelled by the `bodyJson` field directly).
* Python exceptions are the inductive `PyExc`; fallible computations return
  `Except PyExc α`.  The `except (requests.HTTPError, requests.RequestException)`
  clauses catch exactly `PyExc.httpError` and `PyExc.requestException`.
* Note on `execRequest`, line 59 of the source: `raise (requests.HTTPError,
  requests.RequestException)` raises a tuple, which Python 3 rejects at the
  `raise` statement with `TypeError: exceptions must derive from BaseException`;
  the `print` on line 60 is unreachable.  The embedding therefore raises
  `PyExc.typeError` there.
* The network is a pure function `srv : String → HttpResponse` from URL to
  response.  Wall-clock time is a rational; `time.sleep d` advances the clock
  by exactly `d` and no time passes between adjacent statements.  Mutation of
  `self` is explicit state passing; object attributes that may be unset are
  `Option` fields (`none` = attribute absent, `getattr` on it raises
  `AttributeError`).
-/

/-- A JSON value, as produced by `json.loads`.  Numbers are integers (all
payloads in scope use integral numbers); duplicate keys do not occur in the
modelled payloads, so object lookup takes the first match. -/
inductive Json where
  | null : Json
  | bool : Bool → Json
  | num : Int → Json
  | str : String → Json
  | arr : List Json → Json
  | obj : List (String × Json) → Json

/-- The Python exceptions that can arise in the embedded code. -/
inductive PyExc where
  | typeError : String → PyExc
  | keyError : String → PyExc
  | indexError : PyExc
  | attributeError : String → PyExc
  | valueError : String → PyExc
  | zeroDivisionError : PyExc
  | httpError : PyExc
  | requestException : PyExc
deriving DecidableEq, Repr

/-- Python subscript `j[k]` on a JSON value: dict lookup, `KeyError` when the
key is absent, `TypeError` on a non-dict. -/
def Json.getItem (j : Json) (k : String) : Except PyExc Json :=
  match j with
  | .obj kvs =>
    match kvs.lookup k with
    | some v => .ok v
    | none => .error (.keyError k)
  | _ => .error (.typeError "object is not subscriptable")

/-- Python `isinstance(j, list)`. -/
def Json.isList : Json → Bool
  | .arr _ => true
  | _ => false

/-- Python subscript `j[0]` on a list value. -/
def Json.item0 : Json → Except PyExc Json
  | .arr (x :: _) => .ok x
  | .arr [] => .error .indexError
  | _ => .error (.typeError "object is not subscriptable")

/-- Python `int(j)`. -/
def pyInt : Json → Except PyExc Int
  | .num n => .ok n
  | .str s =>
    match s.toInt? with
    | some n => .ok n
    | none => .error (.valueError "invalid literal for int")
  | _ => .error (.typeError "int() argument must be a string or a number")

/-- Python `a + b` on JSON scalars (string concatenation / integer addition). -/
def pyAdd : Json → Json → Except PyExc Json
  | .str a, .str b => .ok (.str (a ++ b))
  | .num a, .num b => .ok (.num (a + b))
  | _, _ => .error (.typeError "unsupported operand types for +")

/-- Python iteration `[x for x in j]`. -/
def Json.pyIter : Json → Except PyExc (List Json)
  | .arr xs => .ok xs
  | .str s => .ok (s.data.map fun c => .str (String.mk [c]))
  | .obj kvs => .ok (kvs.map fun kv => .str kv.1)
  | _ => .error (.typeError "object is not iterable")

/-- Python `getattr(obj, name)` on a possibly-unset attribute. -/
def pyAttr {α : Type} (v : Option α) (name : String) : Except PyExc α :=
  match v with
  | some x => .ok x
  | none => .error (.attributeError name)

/-- An HTTP response: status code and the parse of the body text. -/
structure HttpResponse where
  status_code : Nat
  bodyJson : Json

/-- The mutable state of an `elsClient` instance: credentials, the throttling
timestamp, and the page-size class variable `numRes`. -/
structure ClientState where
  apiKey : String
  instToken : String
  tsLastReq : ℚ
  numRes : Nat
deriving DecidableEq, Repr

namespace elsClient

/-- Class variable `__minReqInterval = 1` (seconds). -/
def minReqInterval : ℚ := 1

/-- Class variable `__userAgent = "elsapy.py"`. -/
def userAgent : String := "elsapy.py"

/-- Class variable `numRes = 25`. -/
def numResDefault : Nat := 25

/-- `elsClient.__init__(apiKey, instToken='')`; `ts0` is the import-time value
of the class variable `__tsLastReq`. -/
def init (apiKey instToken : String) (ts0 : ℚ) : ClientState :=
  { apiKey := apiKey, instToken := instToken, tsLastReq := ts0,
    numRes := numResDefault }

/-- `elsClient.setInstToken(instToken)`. -/
def setInstToken (c : ClientState) (instToken : String) : ClientState :=
  { c with instToken := instToken }

/-- The throttle in `execRequest` (lines 39-42): if less than
`minReqInterval` has elapsed since the last request, sleep for the remainder;
the returned instant is the value of `time.time()` at line 42, which is both
stored in `__tsLastReq` and the moment the request is sent. -/
def throttleTime (tsLastReq now : ℚ) : ℚ :=
  let interval := now - tsLastReq
  if interval < minReqInterval then now + (minReqInterval - interval) else now

/-- The headers dict built in `execRequest` (lines 45-51): the institutional
token header is added only when `self.__instToken` is truthy (non-empty). -/
def buildHeaders (apiKey instToken : String) : List (String × String) :=
  let headers := [("X-ELS-APIKey", apiKey), ("User-Agent", userAgent),
    ("Accept", "application/json")]
  if instToken ≠ "" then headers ++ [("X-ELS-Insttoken", instToken)]
  else headers

end elsClient

/-- Observable record of one outgoing GET: its URL, headers, and send time. -/
structure RequestTrace where
  url : String
  headers : List (String × String)
  sendTime : ℚ

/-- `elsClient.execRequest(URL)` (lines 35-60).  Throttles, updates
`__tsLastReq`, sends the GET; on status 200 returns the parsed JSON body; on
any other status executes `raise (requests.HTTPError, requests.RequestException)`,
which in Python 3 raises `TypeError` (a tuple is not an exception), leaving the
`print` of the status code and body unreachable. -/
def execRequest (c : ClientState) (srv : String → HttpResponse) (now : ℚ)
    (URL : String) : Except PyExc Json × ClientState × RequestTrace :=
  let t := elsClient.throttleTime c.tsLastReq now
  let c' := { c with tsLastReq := t }
  let headers := elsClient.buildHeaders c.apiKey c.instToken
  let r := srv URL
  let res : Except PyExc Json :=
    if r.status_code = 200 then .ok r.bodyJson
    else .error (.typeError "exceptions must derive from BaseException")
  (res, c', ⟨URL, headers, t⟩)

/-- The shared normalization in `read`/`readDocs` (lines 80-83, 105-108,
114-117 are verbatim copies): `apiResponse[payloadType]`, then take element 0
when the value is a list, else the value itself. -/
def normalizePayload (apiResponse : Json) (payloadType : String) :
    Except PyExc Json := do
  let v ← apiResponse.getItem payloadType
  if v.isList then v.item0 else pure v

/-- `elsEntity.read(self, elsClient, payloadType)` (lines 74-87).  Returns the
outcome of the `try`/`except` together with the new values of the attributes
`self.data` and `self.ID` (`none` = not assigned during this call; Python
assigns `self.data` on line 81/83 before the `self.ID` lookup on line 84, so a
`KeyError` there leaves `data` assigned and `ID` not).  Only `HTTPError` and
`RequestException` are caught and turned into `False`. -/
def elsEntity.read (srv : String → HttpResponse) (c : ClientState) (now : ℚ)
    (uri payloadType : String) :
    (Except PyExc Bool × Option Json × Option Json) × ClientState × List RequestTrace :=
  let (resp, c', tr) := execRequest c srv now uri
  let out : Except PyExc Bool × Option Json × Option Json :=
    match resp with
    | .error .httpError => (.ok false, none, none)
    | .error .requestException => (.ok false, none, none)
    | .error e => (.error e, none, none)
    | .ok apiResponse =>
      match normalizePayload apiResponse payloadType with
      | .error e => (.error e, none, none)
      | .ok d =>
        match d.getItem "coredata" >>= fun cd => cd.getItem "dc:identifier" with
        | .error e => (.error e, some d, none)
        | .ok idv => (.ok true, some d, some idv)
  (out, c', [tr])

/-- The attributes of an `elsAuthor` instance (`uri` from `elsEntity.__init__`,
the rest set by `read`/`readDocs`; `none` = attribute not set). -/
structure AuthorState where
  uri : String
  data : Option Json
  ID : Option Json
  firstName : Option Json
  lastName : Option Json
  fullName : Option Json
  docList : Option (List Json)

/-- The attributes of an `elsAffil` instance. -/
structure AffilState where
  uri : String
  data : Option Json
  ID : Option Json
  name : Option Json
  docList : Option (List Json)

/-- The attributes of an `elsDoc` instance. -/
structure DocState where
  uri : String
  data : Option Json
  ID : Option Json
  title : Option Json

namespace elsAuthor

/-- `elsAuthor.__payloadType`. -/
def payloadType : String := "author-retrieval-response"

/-- `elsAuthor.__init__(URI)` (lines 130-134): `elsEntity.__init__` plus
`self.firstName = ""` and `self.lastName = ""`. -/
def init (URI : String) : AuthorState :=
  { uri := URI, data := none, ID := none, firstName := some (.str ""),
    lastName := some (.str ""), fullName := none, docList := none }

/-- Lines 141-143 of `elsAuthor.read`, run when the inherited read returned
`True`: extract `given-name` and `surname` from `self.data` and concatenate
`fullName`; exceptions here are not caught.  Assignment order follows the
source: `firstName` is assigned before the `surname` lookup, `lastName`
before the `+`. -/
def readPost (st1 : AuthorState) : Except PyExc Bool × AuthorState :=
  match pyAttr st1.data "data" with
  | .error e => (.error e, st1)
  | .ok d =>
    match d.getItem "author-profile" >>= fun p =>
        p.getItem "preferred-name" >>= fun pn => pn.getItem "given-name" with
    | .error e => (.error e, st1)
    | .ok gn =>
      let st2 := { st1 with firstName := some gn }
      match d.getItem "author-profile" >>= fun p =>
          p.getItem "preferred-name" >>= fun pn => pn.getItem "surname" with
      | .error e => (.error e, st2)
      | .ok sn =>
        let st3 := { st2 with lastName := some sn }
        match pyAttr st3.firstName "firstName" >>= fun f =>
            pyAttr st3.lastName "lastName" >>= fun l =>
            pyAdd f (.str " ") >>= fun fs => pyAdd fs l with
        | .error e => (.error e, st3)
        | .ok fn => (.ok true, { st3 with fullName := some fn })

/-- `elsAuthor.read(self, elsClient)` (lines 137-146): calls the inherited
`elsProfile.read` (= `elsEntity.read`) with the author payload key; on `True`
runs `readPost`. -/
def read (st : AuthorState) (srv : String → HttpResponse) (c : ClientState)
    (now : ℚ) : Except PyExc Bool × AuthorState × ClientState × List RequestTrace :=
  let ((r, dNew, idNew), c', trs) := elsEntity.read srv c now st.uri payloadType
  let st1 := { st with data := dNew <|> st.data, ID := idNew <|> st.ID }
  match r with
  | .error e => (.error e, st1, c', trs)
  | .ok false => (.ok false, st1, c', trs)
  | .ok true =>
    let (r2, st') := readPost st1
    (r2, st', c', trs)

end elsAuthor

namespace elsAffil

/-- `elsAffil.__payloadType`. -/
def payloadType : String := "affiliation-retrieval-response"

/-- `elsAffil.__init__(URI)` (lines 161-163): just `elsEntity.__init__`. -/
def init (URI : String) : AffilState :=
  { uri := URI, data := none, ID := none, name := none, docList := none }

/-- `elsAffil.read(self, elsClient)` (lines 166-173): inherited read with the
affiliation payload key, then `self.name = self.data["affiliation-name"]`. -/
def read (st : AffilState) (srv : String → HttpResponse) (c : ClientState)
    (now : ℚ) : Except PyExc Bool × AffilState × ClientState × List RequestTrace :=
  let ((r, dNew, idNew), c', trs) := elsEntity.read srv c now st.uri payloadType
  let st1 := { st with data := dNew <|> st.data, ID := idNew <|> st.ID }
  match r with
  | .error e => (.error e, st1, c', trs)
  | .ok false => (.ok false, st1, c', trs)
  | .ok true =>
    match pyAttr st1.data "data" >>= fun d => d.getItem "affiliation-name" with
    | .error e => (.error e, st1, c', trs)
    | .ok nm => (.ok true, { st1 with name := some nm }, c', trs)

end elsAffil

namespace elsDoc

/-- `elsDoc.__payloadType`. -/
def payloadType : String := "abstracts-retrieval-response"

/-- `elsDoc.__init__(URI)` (lines 188-190): just `elsEntity.__init__`. -/
def init (URI : String) : DocState :=
  { uri := URI, data := none, ID := none, title := none }

/-- `elsDoc.read(self, elsClient)` (lines 193-200): inherited read with the
abstracts payload key, then `self.title = self.data["coredata"]["dc:title"]`. -/
def read (st : DocState) (srv : String → HttpResponse) (c : ClientState)
    (now : ℚ) : Except PyExc Bool × DocState × ClientState × List RequestTrace :=
  let ((r, dNew, idNew), c', trs) := elsEntity.read srv c now st.uri payloadType
  let st1 := { st with data := dNew <|> st.data, ID := idNew <|> st.ID }
  match r with
  | .error e => (.error e, st1, c', trs)
  | .ok false => (.ok false, st1, c', trs)
  | .ok true =>
    match pyAttr st1.data "data" >>= fun d =>
        d.getItem "coredata" >>= fun cd => cd.getItem "dc:title" with
    | .error e => (.error e, st1, c', trs)
    | .ok t => (.ok true, { st1 with title := some t }, c', trs)

end elsDoc

/-- The URL of the `i`-th additional page request in `readDocs` (line 112):
`self.uri + "?view=documents&start=" + str((i+1)*elsClient.numRes+1)`. -/
def startUrl (uri : String) (numRes i : Nat) : String :=
  uri ++ "?view=documents&start=" ++ toString ((i + 1) * numRes + 1)

/-- One iteration's body of the `for` loop in `readDocs` (lines 112-118),
applied to each index of `range(0, docCount//numRes)` in turn: request the
page, normalize, extract `documents`/`abstract-document`, and extend
`self.docList`.  The clock for each request is the previous send time (no
time passes between statements).  On an exception the loop stops with the
`docList` accumulated so far still assigned. -/
def readDocsLoop (uri payloadType : String) (numRes : Nat)
    (srv : String → HttpResponse) :
    List Nat → List Json × ClientState × List RequestTrace →
    Except PyExc Unit × List Json × ClientState × List RequestTrace
  | [], (dl, c, trs) => (.ok (), dl, c, trs)
  | i :: rest, (dl, c, trs) =>
    let (resp, c', tr) := execRequest c srv c.tsLastReq (startUrl uri numRes i)
    match resp with
    | .error e => (.error e, dl, c', trs ++ [tr])
    | .ok apiResponse =>
      match normalizePayload apiResponse payloadType with
      | .error e => (.error e, dl, c', trs ++ [tr])
      | .ok d =>
        match d.getItem "documents" >>= fun ds =>
            ds.getItem "abstract-document" >>= Json.pyIter with
        | .error e => (.error e, dl, c', trs ++ [tr])
        | .ok xs => readDocsLoop uri payloadType numRes srv rest
            (dl ++ xs, c', trs ++ [tr])

/-- `elsProfile.readDocs(self, elsClient, payloadType)` (lines 98-121).
`docList0` is the value of `self.docList` before the call (`none` = attribute
not set).  Returns (outcome of the `try`/`except`, new `self.docList`, new
client state, the issued requests).  `self.docList` is assigned on line 110
after `docCount` is read and re-assigned at the end of each loop iteration,
so pages fetched before a failure stay visible.  `docCount//elsClient.numRes`
is Python floor division (`ZeroDivisionError` when `numRes = 0`); only
`HTTPError`/`RequestException` are caught and turned into `False`. -/
def elsProfile.readDocs (uri payloadType : String)
    (docList0 : Option (List Json)) (srv : String → HttpResponse)
    (c : ClientState) (now : ℚ) :
    Except PyExc Bool × Option (List Json) × ClientState × List RequestTrace :=
  let (resp, c1, tr1) := execRequest c srv now (uri ++ "?view=documents")
  let out :=
    match resp with
    | .error e => (Except.error e, docList0, c1, [tr1])
    | .ok apiResponse =>
      match normalizePayload apiResponse payloadType with
      | .error e => (.error e, docList0, c1, [tr1])
      | .ok d =>
        match d.getItem "documents" >>= fun ds => ds.getItem "@total" >>= pyInt with
        | .error e => (.error e, docList0, c1, [tr1])
        | .ok docCount =>
          match d.getItem "documents" >>= fun ds =>
              ds.getItem "abstract-document" >>= Json.pyIter with
          | .error e => (.error e, docList0, c1, [tr1])
          | .ok xs =>
            if c1.numRes = 0 then
              (.error .zeroDivisionError, some xs, c1, [tr1])
            else
              let n := (docCount.fdiv c1.numRes).toNat
              let (r, dl, c', trs) := readDocsLoop uri payloadType c1.numRes srv
                (List.range n) (xs, c1, [tr1])
              ((r.map fun _ => true), some dl, c', trs)
  match out with
  | (.error .httpError, dl, c', trs) => (.ok false, dl, c', trs)
  | (.error .requestException, dl, c', trs) => (.ok false, dl, c', trs)
  | o => o

/-- `elsAuthor.readDocs(self, elsClient)` (lines 148-151). -/
def elsAuthor.readDocs (st : AuthorState) (srv : String → HttpResponse)
    (c : ClientState) (now : ℚ) :
    Except PyExc Bool × AuthorState × ClientState × List RequestTrace :=
  let (r, dl, c', trs) :=
    elsProfile.readDocs st.uri elsAuthor.payloadType st.docList srv c now
  (r, { st with docList := dl }, c', trs)

/-- `elsAffil.readDocs(self, elsClient)` (lines 175-178). -/
def elsAffil.readDocs (st : AffilState) (srv : String → HttpResponse)
    (c : ClientState) (now : ℚ) :
    Except PyExc Bool × AffilState × ClientState × List RequestTrace :=
  let (r, dl, c', trs) :=
    elsProfile.readDocs st.uri elsAffil.payloadType st.docList srv c now
  (r, { st with docList := dl }, c', trs)

/-- A well-formed documents-view page body as returned by the mock server: the
payload key wraps a mapping with a `documents` section holding the total count
and the page's `abstract-document` list. -/
def mkDocsBody (payloadType : String) (total : Int) (docs : List Json) : Json :=
  .obj [(payloadType, .obj [("documents",
    .obj [("@total", .num total), ("abstract-document", .arr docs)])])]

/-- The author payload of the worked example in the spec:
the `author-retrieval-response` list wrapping coredata and preferred name. -/
def exampleAuthorBody : Json :=
  .obj [("author-retrieval-response", .arr [.obj [
    ("coredata", .obj [("dc:identifier", .str "AUTHOR_ID:123")]),
    ("author-profile", .obj [("preferred-name", .obj [
      ("given-name", .str "Jane"), ("surname", .str "Doe")])])]])]

/-- C2: on HTTP 200 `execRequest` returns the parsed JSON body; but on any
other status it does NOT raise an `HttpError` carrying the status code and raw
body — `raise (requests.HTTPError, requests.RequestException)` raises a tuple,
which Python 3 rejects with a `TypeError` that carries neither, and the
`print` of status and body is unreachable. -/
theorem execRequest_status_behaviour (c : ClientState)
    (srv : String → HttpResponse) (now : ℚ) (url : String) :
    ((srv url).status_code = 200 →
      (execRequest c srv now url).1 = .ok (srv url).bodyJson) ∧
    ((srv url).status_code ≠ 200 →
      (execRequest c srv now url).1 =
        .error (.typeError "exceptions must derive from BaseException")) := by
  constructor <;> intro h <;> simp [execRequest, h]

/-- Witness for `execRequest_status_behaviour` at a 200 and a 404 response. -/
theorem execRequest_status_behaviour_witness :
    (execRequest (elsClient.init "k" "" 0) (fun _ => ⟨200, .null⟩) 0 "u").1 =
      .ok .null ∧
    (execRequest (elsClient.init "k" "" 0) (fun _ => ⟨404, .str "err"⟩) 0 "u").1 =
      .error (.typeError "exceptions must derive from BaseException") :=
  ⟨(execRequest_status_behaviour _ _ _ _).1 rfl,
   (execRequest_status_behaviour _ _ _ _).2 (by decide)⟩

/-- C1: when the HTTP layer fails (non-200 status), `elsAuthor.read` does not
return `False`: the `TypeError` from `raise (requests.HTTPError,
requests.RequestException)` is not caught by
`except (requests.HTTPError, requests.RequestException)` and propagates to the
caller.  The entity's prior fields are indeed left unchanged. -/
theorem read_non200_propagates (st : AuthorState) (srv : String → HttpResponse)
    (c : ClientState) (now : ℚ) (h : (srv st.uri).status_code ≠ 200) :
    (elsAuthor.read st srv c now).1 =
      .error (.typeError "exceptions must derive from BaseException") ∧
    (elsAuthor.read st srv c now).1 ≠ .ok false ∧
    (elsAuthor.read st srv c now).2.1 = st := by
  refine ⟨?_, ?_, ?_⟩ <;>
    simp [elsAuthor.read, elsEntity.read, execRequest, h]

/-- Witness for `read_non200_propagates` on a server that always returns 500. -/
theorem read_non200_propagates_witness :
    (elsAuthor.read (elsAuthor.init "u") (fun _ => ⟨500, .str "err"⟩)
        (elsClient.init "k" "" 0) 0).1 =
      .error (.typeError "exceptions must derive from BaseException") ∧
    (elsAuthor.read (elsAuthor.init "u") (fun _ => ⟨500, .str "err"⟩)
        (elsClient.init "k" "" 0) 0).2.1 = elsAuthor.init "u" :=
  ⟨(read_non200_propagates _ _ _ _ (by decide)).1,
   (read_non200_propagates _ _ _ _ (by decide)).2.2⟩

/-- C6: consecutive `execRequest` calls on one client. The timestamp stored in
`__tsLastReq` is the send time (updated after the delay, before sending); when
less than `minReqInterval` has elapsed the call blocks for exactly the
remainder; and the gap between the two send times is always at least
`minReqInterval`. -/
theorem execRequest_throttle_gap (c : ClientState) (srv : String → HttpResponse)
    (now1 now2 : ℚ) (url1 url2 : String) :
    (execRequest c srv now1 url1).2.1.tsLastReq
        = (execRequest c srv now1 url1).2.2.sendTime ∧
    (now2 - (execRequest c srv now1 url1).2.2.sendTime < elsClient.minReqInterval →
      (execRequest (execRequest c srv now1 url1).2.1 srv now2 url2).2.2.sendTime
        = (execRequest c srv now1 url1).2.2.sendTime + elsClient.minReqInterval) ∧
    elsClient.minReqInterval ≤
      (execRequest (execRequest c srv now1 url1).2.1 srv now2 url2).2.2.sendTime
        - (execRequest c srv now1 url1).2.2.sendTime := by
  refine ⟨rfl, ?_, ?_⟩ <;>
    simp only [execRequest, elsClient.throttleTime, elsClient.minReqInterval] <;>
    intros <;> split_ifs at * <;> linarith

/-- Witness for `execRequest_throttle_gap`: second request 1/2 second after
the first is delayed to exactly one second after it. -/
theorem execRequest_throttle_gap_witness :
    ((3 : ℚ)/2 - (execRequest (elsClient.init "k" "" 0) (fun _ => ⟨200, .null⟩)
        0 "a").2.2.sendTime < elsClient.minReqInterval) ∧
    (execRequest (execRequest (elsClient.init "k" "" 0) (fun _ => ⟨200, .null⟩)
          0 "a").2.1 (fun _ => ⟨200, .null⟩) ((3 : ℚ)/2) "b").2.2.sendTime
      = (execRequest (elsClient.init "k" "" 0) (fun _ => ⟨200, .null⟩)
          0 "a").2.2.sendTime + elsClient.minReqInterval := by
  have h : (3 : ℚ)/2 - (execRequest (elsClient.init "k" "" 0)
      (fun _ => ⟨200, .null⟩) 0 "a").2.2.sendTime < elsClient.minReqInterval := by
    norm_num [execRequest, elsClient.init, elsClient.throttleTime,
      elsClient.minReqInterval]
  exact ⟨h, (execRequest_throttle_gap (elsClient.init "k" "" 0)
    (fun _ => ⟨200, .null⟩) 0 ((3 : ℚ)/2) "a" "b").2.1 h⟩

/-- C9: the outgoing request carries the `X-ELS-Insttoken` header exactly when
the configured institutional token is a non-empty string, and after
`setInstToken("")` the header is omitted entirely. -/
theorem execRequest_insttoken_header (c : ClientState)
    (srv : String → HttpResponse) (now : ℚ) (url : String) :
    ((execRequest c srv now url).2.2.headers.lookup "X-ELS-Insttoken"
        = some c.instToken ↔ c.instToken ≠ "") ∧
    (execRequest (elsClient.setInstToken c "") srv now url).2.2.headers.lookup
        "X-ELS-Insttoken" = none := by
  constructor
  · by_cases h : c.instToken = "" <;>
      simp [execRequest, elsClient.buildHeaders, elsClient.setInstToken,
        elsClient.userAgent, List.lookup, h]
  · simp [execRequest, elsClient.buildHeaders, elsClient.setInstToken,
      elsClient.userAgent, List.lookup]

/-- Witness for `execRequest_insttoken_header`: a client whose token is
`"tok"` sends the header. -/
theorem execRequest_insttoken_header_witness :
    (execRequest (elsClient.init "k" "tok" 0) (fun _ => ⟨200, .null⟩)
        0 "u").2.2.headers.lookup "X-ELS-Insttoken" = some "tok" :=
  ((execRequest_insttoken_header (elsClient.init "k" "tok" 0)
    (fun _ => ⟨200, .null⟩) 0 "u").1).2 (by decide)

/-- C10: directly after construction an author has `firstName` and `lastName`
equal to `""` and no `fullName` attribute, an affiliation has no `name`
attribute, and a document has no `title` attribute; accessing the missing
attributes raises `AttributeError`. -/
theorem init_attribute_state (uri : String) :
    (elsAuthor.init uri).firstName = some (.str "") ∧
    (elsAuthor.init uri).lastName = some (.str "") ∧
    (elsAuthor.init uri).fullName = none ∧
    (elsAffil.init uri).name = none ∧
    (elsDoc.init uri).title = none ∧
    pyAttr (elsAuthor.init uri).fullName "fullName"
      = .error (.attributeError "fullName") ∧
    pyAttr (elsAffil.init uri).name "name" = .error (.attributeError "name") ∧
    pyAttr (elsDoc.init uri).title "title" = .error (.attributeError "title") :=
  ⟨rfl, rfl, rfl, rfl, rfl, rfl, rfl, rfl⟩

/-- `apiResponse[key]` where the payload is the mapping directly. -/
theorem normalizePayload_obj (key : String) (m : List (String × Json)) :
    normalizePayload (.obj [(key, .obj m)]) key = .ok (.obj m) := by
  simp [normalizePayload, Json.getItem, List.lookup, Json.isList, Bind.bind,
    Except.bind, Pure.pure, Except.pure]

/-- `apiResponse[key]` where the payload is a one-element list. -/
theorem normalizePayload_singleton (key : String) (m : Json) :
    normalizePayload (.obj [(key, .arr [m])]) key = .ok m := by
  simp [normalizePayload, Json.getItem, List.lookup, Json.isList, Json.item0,
    Bind.bind, Except.bind, Pure.pure, Except.pure]

/-- C5: reading a 200 response of shape `{key: m}` and one of shape
`{key: [m]}` (the record wrapped in a one-element list) produce identical
results — same outcome, same `data`/`ID`, same derived fields, for the generic
entity read and for every concrete entity type. -/
theorem read_payload_shape_irrelevant (key uri : String)
    (m : List (String × Json)) (stA : AuthorState) (stF : AffilState)
    (stD : DocState) (c : ClientState) (now : ℚ) :
    (elsEntity.read (fun _ => ⟨200, .obj [(key, .obj m)]⟩) c now uri key =
      elsEntity.read (fun _ => ⟨200, .obj [(key, .arr [.obj m])]⟩) c now uri key) ∧
    (elsAuthor.read stA (fun _ => ⟨200, .obj [(elsAuthor.payloadType, .obj m)]⟩) c now =
      elsAuthor.read stA (fun _ => ⟨200, .obj [(elsAuthor.payloadType, .arr [.obj m])]⟩) c now) ∧
    (elsAffil.read stF (fun _ => ⟨200, .obj [(elsAffil.payloadType, .obj m)]⟩) c now =
      elsAffil.read stF (fun _ => ⟨200, .obj [(elsAffil.payloadType, .arr [.obj m])]⟩) c now) ∧
    (elsDoc.read stD (fun _ => ⟨200, .obj [(elsDoc.payloadType, .obj m)]⟩) c now =
      elsDoc.read stD (fun _ => ⟨200, .obj [(elsDoc.payloadType, .arr [.obj m])]⟩) c now) := by
  refine ⟨?_, ?_, ?_, ?_⟩ <;>
    simp [elsEntity.read, elsAuthor.read, elsAffil.read, elsDoc.read,
      execRequest, normalizePayload_obj, normalizePayload_singleton]

/-- C8: on a 200 response whose body lacks an expected key — the payload key,
`coredata`, or `dc:identifier` — `elsEntity.read` does not return a boolean
failure: the `KeyError` is outside the caught exception classes and propagates
to the caller. -/
theorem read_missing_key_propagates (uri payloadType : String)
    (kvs m cd : List (String × Json)) (c : ClientState) (now : ℚ)
    (h1 : kvs.lookup payloadType = none)
    (h2 : m.lookup "coredata" = none)
    (h3 : cd.lookup "dc:identifier" = none) :
    (elsEntity.read (fun _ => ⟨200, .obj kvs⟩) c now uri payloadType).1.1 =
      .error (.keyError payloadType) ∧
    (elsEntity.read (fun _ => ⟨200, .obj [(payloadType, .obj m)]⟩)
        c now uri payloadType).1.1 = .error (.keyError "coredata") ∧
    (elsEntity.read (fun _ => ⟨200,
        .obj [(payloadType, .obj [("coredata", .obj cd)])]⟩)
        c now uri payloadType).1.1 = .error (.keyError "dc:identifier") := by
  refine ⟨?_, ?_, ?_⟩ <;>
    simp [elsEntity.read, execRequest, normalizePayload, Json.getItem,
      Json.isList, List.lookup, h1, h2, h3, Bind.bind, Except.bind,
      Pure.pure, Except.pure]

/-- Witness for `read_missing_key_propagates` on empty mappings. -/
theorem read_missing_key_propagates_witness :
    (elsEntity.read (fun _ => ⟨200, .obj []⟩) (elsClient.init "k" "" 0)
        0 "u" "pt").1.1 = .error (.keyError "pt") ∧
    (elsEntity.read (fun _ => ⟨200, .obj [("pt", .obj [])]⟩)
        (elsClient.init "k" "" 0) 0 "u" "pt").1.1 =
      .error (.keyError "coredata") ∧
    (elsEntity.read (fun _ => ⟨200, .obj [("pt", .obj [("coredata", .obj [])])]⟩)
        (elsClient.init "k" "" 0) 0 "u" "pt").1.1 =
      .error (.keyError "dc:identifier") :=
  read_missing_key_propagates "u" "pt" [] [] [] (elsClient.init "k" "" 0) 0
    rfl rfl rfl

/-- When the post-read extraction succeeds, the extracted names are strings
and `fullName` is their concatenation with a space. -/
theorem authorPost_ok_names (st1 : AuthorState)
    (h : (elsAuthor.readPost st1).1 = .ok true) :
    ∃ f l : String,
      (elsAuthor.readPost st1).2.firstName = some (.str f) ∧
      (elsAuthor.readPost st1).2.lastName = some (.str l) ∧
      (elsAuthor.readPost st1).2.fullName = some (.str (f ++ " " ++ l)) := by
  rcases hP : elsAuthor.readPost st1 with ⟨r2, st'⟩
  rw [hP] at h
  simp only at h
  subst h
  unfold elsAuthor.readPost at hP
  split at hP
  next e hd => simp at hP
  next d hd =>
    split at hP
    next e hgn => simp at hP
    next gn hgn =>
      split at hP
      next e hsn => simp at hP
      next sn hsn =>
        dsimp only [] at hP
        split at hP
        next e hfn => simp at hP
        next fn hfn =>
          simp only [pyAttr, Bind.bind, Except.bind] at hfn
          cases gn <;> simp [pyAdd, Except.bind] at hfn
          cases sn <;> simp [pyAdd, Except.bind] at hfn
          rename_i f l
          simp only [Prod.mk.injEq, true_and] at hP
          subst hP
          exact ⟨f, l, rfl, rfl, by simp [hfn]⟩

/-- C7: whenever `elsAuthor.read` succeeds, `fullName` equals
`firstName + " " + lastName`; on the worked example response the id is
`AUTHOR_ID:123`, the names are `Jane`/`Doe`, and the full name `Jane Doe`. -/
theorem author_read_fullname (st : AuthorState) (srv : String → HttpResponse)
    (c : ClientState) (now : ℚ)
    (h : (elsAuthor.read st srv c now).1 = .ok true) :
    (∃ f l : String,
      (elsAuthor.read st srv c now).2.1.firstName = some (.str f) ∧
      (elsAuthor.read st srv c now).2.1.lastName = some (.str l) ∧
      (elsAuthor.read st srv c now).2.1.fullName = some (.str (f ++ " " ++ l))) ∧
    (elsAuthor.read (elsAuthor.init "https://api.elsevier.com/content/author/author-id/123")
        (fun _ => ⟨200, exampleAuthorBody⟩) (elsClient.init "k" "" 0) 0).1 = .ok true ∧
    (elsAuthor.read (elsAuthor.init "https://api.elsevier.com/content/author/author-id/123")
        (fun _ => ⟨200, exampleAuthorBody⟩) (elsClient.init "k" "" 0) 0).2.1.ID
      = some (.str "AUTHOR_ID:123") ∧
    (elsAuthor.read (elsAuthor.init "https://api.elsevier.com/content/author/author-id/123")
        (fun _ => ⟨200, exampleAuthorBody⟩) (elsClient.init "k" "" 0) 0).2.1.firstName
      = some (.str "Jane") ∧
    (elsAuthor.read (elsAuthor.init "https://api.elsevier.com/content/author/author-id/123")
        (fun _ => ⟨200, exampleAuthorBody⟩) (elsClient.init "k" "" 0) 0).2.1.lastName
      = some (.str "Doe") ∧
    (elsAuthor.read (elsAuthor.init "https://api.elsevier.com/content/author/author-id/123")
        (fun _ => ⟨200, exampleAuthorBody⟩) (elsClient.init "k" "" 0) 0).2.1.fullName
      = some (.str "Jane Doe") := by
  refine ⟨?_, rfl, rfl, rfl, rfl, rfl⟩
  rcases hE : elsAuthor.read st srv c now with ⟨r, st', c', trs⟩
  rw [hE] at h
  simp only at h
  subst h
  rcases hEnt : elsEntity.read srv c now st.uri elsAuthor.payloadType
    with ⟨⟨r0, dN, iN⟩, c2, trs2⟩
  unfold elsAuthor.read at hE
  rw [hEnt] at hE
  cases r0 with
  | error e => simp at hE
  | ok b =>
    cases b
    · simp at hE
    · simp only [Prod.mk.injEq] at hE
      obtain ⟨h1, h2, -, -⟩ := hE
      subst h2
      exact authorPost_ok_names _ h1

/-- Witness for `author_read_fullname` at the spec's example response. -/
theorem author_read_fullname_witness :
    ∃ f l : String,
      (elsAuthor.read (elsAuthor.init "https://api.elsevier.com/content/author/author-id/123")
          (fun _ => ⟨200, exampleAuthorBody⟩) (elsClient.init "k" "" 0) 0).2.1.firstName
        = some (.str f) ∧
      (elsAuthor.read (elsAuthor.init "https://api.elsevier.com/content/author/author-id/123")
          (fun _ => ⟨200, exampleAuthorBody⟩) (elsClient.init "k" "" 0) 0).2.1.lastName
        = some (.str l) ∧
      (elsAuthor.read (elsAuthor.init "https://api.elsevier.com/content/author/author-id/123")
          (fun _ => ⟨200, exampleAuthorBody⟩) (elsClient.init "k" "" 0) 0).2.1.fullName
        = some (.str (f ++ " " ++ l)) :=
  (author_read_fullname (elsAuthor.init "https://api.elsevier.com/content/author/author-id/123")
    (fun _ => ⟨200, exampleAuthorBody⟩) (elsClient.init "k" "" 0) 0 rfl).1

/-- Normalizing a mock documents page yields its inner mapping. -/
theorem normalizePayload_mkDocsBody (payloadType : String) (total : Int)
    (docs : List Json) :
    normalizePayload (mkDocsBody payloadType total docs) payloadType =
      .ok (.obj [("documents", .obj [("@total", .num total),
        ("abstract-document", .arr docs)])]) := by
  simp [mkDocsBody, normalizePayload_obj]

/-- Extracting `int(data["documents"]["@total"])` from a mock page. -/
theorem docsBody_total (total : Int) (docs : List Json) :
    ((Json.obj [("documents", .obj [("@total", .num total),
        ("abstract-document", .arr docs)])]).getItem "documents" >>= fun ds =>
      ds.getItem "@total" >>= pyInt) = .ok total := rfl

/-- Extracting the `abstract-document` list from a mock page. -/
theorem docsBody_docs (total : Int) (docs : List Json) :
    ((Json.obj [("documents", .obj [("@total", .num total),
        ("abstract-document", .arr docs)])]).getItem "documents" >>= fun ds =>
      ds.getItem "abstract-document" >>= Json.pyIter) = .ok docs := rfl

/-- The pagination loop over page indices for which the mock returns
well-formed 200 pages: it succeeds, appends the pages' document lists in
order, and requests exactly the start URLs of those indices. -/
theorem readDocsLoop_ok (uri payloadType : String) (P : Nat)
    (srv : String → HttpResponse) (tot : Int) (pages : Nat → List Json)
    (is : List Nat) :
    ∀ (dl : List Json) (c : ClientState) (trs : List RequestTrace),
    (∀ i ∈ is, srv (startUrl uri P i) =
      ⟨200, mkDocsBody payloadType tot (pages (i + 1))⟩) →
    ∃ (c' : ClientState) (newtrs : List RequestTrace),
      readDocsLoop uri payloadType P srv is (dl, c, trs) =
        (.ok (), dl ++ (is.map fun i => pages (i + 1)).flatten, c', trs ++ newtrs) ∧
      newtrs.map (fun tr => tr.url) = is.map (startUrl uri P) := by
  induction is with
  | nil => exact fun dl c trs _ => ⟨c, [], by simp [readDocsLoop], rfl⟩
  | cons i rest ih =>
    intro dl c trs h
    have hsrv := h i (List.mem_cons_self i rest)
    obtain ⟨c', newtrs, heq, hurl⟩ := ih (dl ++ pages (i + 1))
      { c with tsLastReq := elsClient.throttleTime c.tsLastReq c.tsLastReq }
      (trs ++ [⟨startUrl uri P i, elsClient.buildHeaders c.apiKey c.instToken,
        elsClient.throttleTime c.tsLastReq c.tsLastReq⟩])
      (fun j hj => h j (List.mem_cons_of_mem i hj))
    refine ⟨c', ⟨startUrl uri P i, elsClient.buildHeaders c.apiKey c.instToken,
      elsClient.throttleTime c.tsLastReq c.tsLastReq⟩ :: newtrs, ?_, ?_⟩
    · simp only [readDocsLoop, execRequest, hsrv]
      simp [normalizePayload_mkDocsBody, docsBody_docs, heq, List.append_assoc]
    · simp [hurl]

/-- C3: with every HTTP request succeeding against a well-formed mock,
`readDocs` with total `T` and page size `P > 0` issues exactly `1 + T / P`
requests — the first at `uri + "?view=documents"`, the `i`-th additional one
at `uri + "?view=documents&start=" + ((i+1)*P + 1)` — and the resulting
`docList` is the concatenation of the per-page lists, whose length is the sum
of the per-page list lengths. -/
theorem readDocs_pagination (uri payloadType : String) (T P : Nat)
    (pages : Nat → List Json) (srv : String → HttpResponse) (c : ClientState)
    (now : ℚ) (docList0 : Option (List Json))
    (hP : 0 < P) (hnum : c.numRes = P)
    (h0 : srv (uri ++ "?view=documents") =
      ⟨200, mkDocsBody payloadType (T : Int) (pages 0)⟩)
    (hpages : ∀ i < T / P, srv (startUrl uri P i) =
      ⟨200, mkDocsBody payloadType (T : Int) (pages (i + 1))⟩) :
    ∃ (c' : ClientState) (newtrs : List RequestTrace),
      elsProfile.readDocs uri payloadType docList0 srv c now =
        (.ok true, some (pages 0 ++
            ((List.range (T / P)).map fun i => pages (i + 1)).flatten), c',
          ⟨uri ++ "?view=documents", elsClient.buildHeaders c.apiKey c.instToken,
            elsClient.throttleTime c.tsLastReq now⟩ :: newtrs) ∧
      newtrs.map (fun tr => tr.url) = (List.range (T / P)).map (startUrl uri P) ∧
      newtrs.length = T / P ∧
      (pages 0 ++ ((List.range (T / P)).map fun i => pages (i + 1)).flatten).length
        = (pages 0).length +
          ((List.range (T / P)).map fun i => (pages (i + 1)).length).sum := by
  have hfd : (((T : Nat) : Int).fdiv ((P : Nat) : Int)).toNat = T / P := by
    rw [← Int.ofNat_fdiv]; exact Int.toNat_ofNat _
  obtain ⟨c', newtrs, heq, hurl⟩ := readDocsLoop_ok uri payloadType P srv (T : Int)
    pages (List.range (T / P)) (pages 0)
    { c with tsLastReq := elsClient.throttleTime c.tsLastReq now }
    [⟨uri ++ "?view=documents", elsClient.buildHeaders c.apiKey c.instToken,
      elsClient.throttleTime c.tsLastReq now⟩]
    (fun i hi => hpages i (List.mem_range.mp hi))
  rw [hnum] at heq
  have hlen : newtrs.length = T / P := by
    have := congrArg List.length hurl
    simpa using this
  refine ⟨c', newtrs, ?_, hurl, hlen, ?_⟩
  · have hPne : ¬ (P = 0) := by omega
    simp only [elsProfile.readDocs, execRequest, h0]
    simp [normalizePayload_mkDocsBody, docsBody_total, docsBody_docs, hnum,
      hPne, hfd, heq, Except.map]
  · simp [Function.comp_def]

/-- Witness for `readDocs_pagination`: total 30, page size 25 — exactly two
requests, the second at `start=26`, and the two pages concatenated. -/
theorem readDocs_pagination_witness :
    (elsProfile.readDocs "u" "p" none (fun url =>
        if url = "u" ++ "?view=documents" then
          ⟨200, mkDocsBody "p" ((30 : Nat) : Int)
            (if (0 : Nat) = 0 then [Json.str "d1"] else [Json.str "d2"])⟩
        else if url = startUrl "u" 25 0 then
          ⟨200, mkDocsBody "p" ((30 : Nat) : Int)
            (if (1 : Nat) = 0 then [Json.str "d1"] else [Json.str "d2"])⟩
        else ⟨404, Json.null⟩)
        (elsClient.init "k" "" 0) 0).1 = .ok true ∧
    (elsProfile.readDocs "u" "p" none (fun url =>
        if url = "u" ++ "?view=documents" then
          ⟨200, mkDocsBody "p" ((30 : Nat) : Int)
            (if (0 : Nat) = 0 then [Json.str "d1"] else [Json.str "d2"])⟩
        else if url = startUrl "u" 25 0 then
          ⟨200, mkDocsBody "p" ((30 : Nat) : Int)
            (if (1 : Nat) = 0 then [Json.str "d1"] else [Json.str "d2"])⟩
        else ⟨404, Json.null⟩)
        (elsClient.init "k" "" 0) 0).2.1 = some [Json.str "d1", Json.str "d2"] ∧
    ((elsProfile.readDocs "u" "p" none (fun url =>
        if url = "u" ++ "?view=documents" then
          ⟨200, mkDocsBody "p" ((30 : Nat) : Int)
            (if (0 : Nat) = 0 then [Json.str "d1"] else [Json.str "d2"])⟩
        else if url = startUrl "u" 25 0 then
          ⟨200, mkDocsBody "p" ((30 : Nat) : Int)
            (if (1 : Nat) = 0 then [Json.str "d1"] else [Json.str "d2"])⟩
        else ⟨404, Json.null⟩)
        (elsClient.init "k" "" 0) 0).2.2.2).length = 2 ∧
    ((elsProfile.readDocs "u" "p" none (fun url =>
        if url = "u" ++ "?view=documents" then
          ⟨200, mkDocsBody "p" ((30 : Nat) : Int)
            (if (0 : Nat) = 0 then [Json.str "d1"] else [Json.str "d2"])⟩
        else if url = startUrl "u" 25 0 then
          ⟨200, mkDocsBody "p" ((30 : Nat) : Int)
            (if (1 : Nat) = 0 then [Json.str "d1"] else [Json.str "d2"])⟩
        else ⟨404, Json.null⟩)
        (elsClient.init "k" "" 0) 0).2.2.2).map (fun tr => tr.url)
      = ["u" ++ "?view=documents", "u" ++ "?view=documents&start=" ++ "26"] := by
  obtain ⟨c', newtrs, heq, hurl, hlen, -⟩ :=
    readDocs_pagination "u" "p" 30 25
      (fun n => if n = 0 then [Json.str "d1"] else [Json.str "d2"])
      (fun url =>
        if url = "u" ++ "?view=documents" then
          ⟨200, mkDocsBody "p" ((30 : Nat) : Int)
            (if (0 : Nat) = 0 then [Json.str "d1"] else [Json.str "d2"])⟩
        else if url = startUrl "u" 25 0 then
          ⟨200, mkDocsBody "p" ((30 : Nat) : Int)
            (if (1 : Nat) = 0 then [Json.str "d1"] else [Json.str "d2"])⟩
        else ⟨404, Json.null⟩)
      (elsClient.init "k" "" 0) 0 none (by decide) rfl rfl
      (fun i hi => by
        have hi1 : i < 1 := hi
        have h0 : i = 0 := Nat.lt_one_iff.mp hi1
        subst h0
        rfl)
  refine ⟨?_, ?_, ?_, ?_⟩
  · rw [heq]
  · rw [heq]
    rfl
  · rw [heq]
    simp [hlen]
  · rw [heq]
    simp only [List.map_cons, hurl]
    rfl

/-- The pagination loop when the pages before index `j` are well-formed 200
pages but the request for page `j` has non-200 status: the loop stops with the
`TypeError` from the tuple-raise, keeping the document lists accumulated so
far. -/
theorem readDocsLoop_fail (uri payloadType : String) (P : Nat)
    (srv : String → HttpResponse) (tot : Int) (pages : Nat → List Json)
    (j : Nat) (rest : List Nat)
    (hfail : (srv (startUrl uri P j)).status_code ≠ 200) :
    ∀ (is1 : List Nat) (dl : List Json) (c : ClientState)
      (trs : List RequestTrace),
    (∀ i ∈ is1, srv (startUrl uri P i) =
      ⟨200, mkDocsBody payloadType tot (pages (i + 1))⟩) →
    ∃ (c' : ClientState) (newtrs : List RequestTrace),
      readDocsLoop uri payloadType P srv (is1 ++ j :: rest) (dl, c, trs) =
        (.error (.typeError "exceptions must derive from BaseException"),
          dl ++ (is1.map fun i => pages (i + 1)).flatten, c', trs ++ newtrs) ∧
      newtrs.map (fun tr => tr.url) = is1.map (startUrl uri P) ++ [startUrl uri P j] := by
  intro is1
  induction is1 with
  | nil =>
    intro dl c trs _
    refine ⟨{ c with tsLastReq := elsClient.throttleTime c.tsLastReq c.tsLastReq },
      [⟨startUrl uri P j, elsClient.buildHeaders c.apiKey c.instToken,
        elsClient.throttleTime c.tsLastReq c.tsLastReq⟩], ?_, rfl⟩
    simp [readDocsLoop, execRequest, hfail]
  | cons i restg ih =>
    intro dl c trs h
    have hsrv := h i (List.mem_cons_self i restg)
    obtain ⟨c', newtrs, heq, hurl⟩ := ih (dl ++ pages (i + 1))
      { c with tsLastReq := elsClient.throttleTime c.tsLastReq c.tsLastReq }
      (trs ++ [⟨startUrl uri P i, elsClient.buildHeaders c.apiKey c.instToken,
        elsClient.throttleTime c.tsLastReq c.tsLastReq⟩])
      (fun k hk => h k (List.mem_cons_of_mem i hk))
    refine ⟨c', ⟨startUrl uri P i, elsClient.buildHeaders c.apiKey c.instToken,
      elsClient.throttleTime c.tsLastReq c.tsLastReq⟩ :: newtrs, ?_, ?_⟩
    · simp only [List.cons_append, readDocsLoop, execRequest, hsrv]
      simp [normalizePayload_mkDocsBody, docsBody_docs, heq, List.append_assoc]
    · simp [hurl]

/-- C4 (amended): when the request for extra page `j` fails at the HTTP level
after `j` successful extra pages, `readDocs` does not return `False` — the
`TypeError` from the tuple-raise propagates uncaught — and the document lists
accumulated from the first page and the earlier successful extra pages ARE
retained in the caller-visible `docList` (`self.docList` is assigned before
the failing request). -/
theorem readDocs_page_failure_retains (uri payloadType : String) (T P j : Nat)
    (pages : Nat → List Json) (srv : String → HttpResponse) (c : ClientState)
    (now : ℚ) (docList0 : Option (List Json))
    (hP : 0 < P) (hnum : c.numRes = P) (hj : j < T / P)
    (h0 : srv (uri ++ "?view=documents") =
      ⟨200, mkDocsBody payloadType (T : Int) (pages 0)⟩)
    (hpages : ∀ i < j, srv (startUrl uri P i) =
      ⟨200, mkDocsBody payloadType (T : Int) (pages (i + 1))⟩)
    (hfail : (srv (startUrl uri P j)).status_code ≠ 200) :
    ∃ (c' : ClientState) (trs : List RequestTrace),
      elsProfile.readDocs uri payloadType docList0 srv c now =
        (.error (.typeError "exceptions must derive from BaseException"),
          some (pages 0 ++ ((List.range j).map fun i => pages (i + 1)).flatten),
          c', trs) ∧
      (elsProfile.readDocs uri payloadType docList0 srv c now).1 ≠ .ok false := by
  have hfd : (((T : Nat) : Int).fdiv ((P : Nat) : Int)).toNat = T / P := by
    rw [← Int.ofNat_fdiv]; exact Int.toNat_ofNat _
  obtain ⟨m, hm⟩ : ∃ m, T / P = j + (m + 1) := ⟨T / P - j - 1, by omega⟩
  have hdec : List.range (T / P) = List.range j ++ j ::
      (List.range m).map (fun k => j + (k + 1)) := by
    rw [hm, List.range_add, List.range_succ_eq_map]
    simp [List.map_map, Function.comp_def]
  obtain ⟨c', newtrs, heq, hurl⟩ := readDocsLoop_fail uri payloadType P srv (T : Int)
    pages j ((List.range m).map (fun k => j + (k + 1))) hfail (List.range j)
    (pages 0)
    { c with tsLastReq := elsClient.throttleTime c.tsLastReq now }
    [⟨uri ++ "?view=documents", elsClient.buildHeaders c.apiKey c.instToken,
      elsClient.throttleTime c.tsLastReq now⟩]
    (fun i hi => hpages i (List.mem_range.mp hi))
  rw [hnum] at heq
  have hPne : ¬ (P = 0) := by omega
  have hmain : elsProfile.readDocs uri payloadType docList0 srv c now =
      (.error (.typeError "exceptions must derive from BaseException"),
        some (pages 0 ++ ((List.range j).map fun i => pages (i + 1)).flatten),
        c', ⟨uri ++ "?view=documents", elsClient.buildHeaders c.apiKey c.instToken,
          elsClient.throttleTime c.tsLastReq now⟩ :: newtrs) := by
    simp only [elsProfile.readDocs, execRequest, h0]
    simp [normalizePayload_mkDocsBody, docsBody_total, docsBody_docs, hnum,
      hPne, hfd, hdec, heq, Except.map]
  exact ⟨c', _, hmain, by rw [hmain]; simp⟩

/-- Counterexample to C4 as stated: total 30, page size 25, the first page
succeeds with one document, the second page request returns 500.  `readDocs`
does not return `False` (the uncaught `TypeError` propagates), and the first
page's document list IS retained in the caller-visible `docList`. -/
theorem readDocs_page_failure_counterexample :
    (elsProfile.readDocs "u" "p" none
        (fun url => if url = "u" ++ "?view=documents" then
            ⟨200, mkDocsBody "p" ((30 : Nat) : Int) [Json.str "d1"]⟩
          else ⟨500, Json.str "boom"⟩)
        (elsClient.init "k" "" 0) 0).1 =
      .error (.typeError "exceptions must derive from BaseException") ∧
    (elsProfile.readDocs "u" "p" none
        (fun url => if url = "u" ++ "?view=documents" then
            ⟨200, mkDocsBody "p" ((30 : Nat) : Int) [Json.str "d1"]⟩
          else ⟨500, Json.str "boom"⟩)
        (elsClient.init "k" "" 0) 0).1 ≠ .ok false ∧
    (elsProfile.readDocs "u" "p" none
        (fun url => if url = "u" ++ "?view=documents" then
            ⟨200, mkDocsBody "p" ((30 : Nat) : Int) [Json.str "d1"]⟩
          else ⟨500, Json.str "boom"⟩)
        (elsClient.init "k" "" 0) 0).2.1 = some [Json.str "d1"] := by
  have h1 : (elsProfile.readDocs "u" "p" none
      (fun url => if url = "u" ++ "?view=documents" then
          ⟨200, mkDocsBody "p" ((30 : Nat) : Int) [Json.str "d1"]⟩
        else ⟨500, Json.str "boom"⟩)
      (elsClient.init "k" "" 0) 0).1 =
      .error (.typeError "exceptions must derive from BaseException") := rfl
  exact ⟨h1, by rw [h1]; simp, rfl⟩

/-- Witness for `readDocs_page_failure_retains` at the counterexample input. -/
theorem readDocs_page_failure_retains_witness :
    ∃ (c' : ClientState) (trs : List RequestTrace),
      elsProfile.readDocs "u" "p" none
          (fun url => if url = "u" ++ "?view=documents" then
              ⟨200, mkDocsBody "p" ((30 : Nat) : Int) [Json.str "d1"]⟩
            else ⟨500, Json.str "boom"⟩)
          (elsClient.init "k" "" 0) 0 =
        (.error (.typeError "exceptions must derive from BaseException"),
          some [Json.str "d1"], c', trs) ∧
      (elsProfile.readDocs "u" "p" none
          (fun url => if url = "u" ++ "?view=documents" then
              ⟨200, mkDocsBody "p" ((30 : Nat) : Int) [Json.str "d1"]⟩
            else ⟨500, Json.str "boom"⟩)
          (elsClient.init "k" "" 0) 0).1 ≠ .ok false :=
  readDocs_page_failure_retains "u" "p" 30 25 0 (fun _ => [Json.str "d1"])
    (fun url => if url = "u" ++ "?view=documents" then
        ⟨200, mkDocsBody "p" ((30 : Nat) : Int) [Json.str "d1"]⟩
      else ⟨500, Json.str "boom"⟩)
    (elsClient.init "k" "" 0) 0 none (by decide) rfl (by decide) rfl
    (fun i hi => absurd hi (Nat.not_lt_zero i)) (by decide)
